import Mathlib

/-!
Verification of the kco operator's monitoring control plane against its
natural-language specification.

The development shallowly embeds the Python source of the repository:

* JSON-like state trees (the payloads returned by the GraphQL state query)
  are modelled by the inductive `JVal`.  A Python `dict` is represented by
  its association list of entries; the canonical (key-sorted, duplicate-free)
  representation is assumed where the source relies on `json.dumps(...,
  sort_keys=True)`.
* Python value equality (`==`), truthiness, `str()`, `float()` coercion and
  hashability are modelled explicitly (`pyEq`, `pyTruthy`, `pyStr`,
  `pyFloat`, `pyHashable`) because the source's behaviour depends on them.
* The SHA-256 checksum of `StateSnapshot.create` is modelled by the
  canonical serialization string itself: the spec requires a
  collision-resistant hash, so checksum equality is identified with equality
  of the canonicalized serializations.
* Wall-clock times (`time.time()`, `datetime.now().timestamp()`) are
  modelled as rationals passed explicitly.
* Fallible operations are `Option`/`Except` valued; a raised Python
  exception is an `Except.error`.
-/

/-- A JSON-like value as produced by parsing a GraphQL response in Python:
`None`, `bool`, `int`, `str`, `list`, `dict`.  Python floats are outside the
modelled data domain.  `obj` carries the association list of a Python dict;
dicts are assumed duplicate-free and key-sorted (canonical form). -/
inductive JVal where
  | null
  | b (v : Bool)
  | i (v : Int)
  | s (v : String)
  | arr (vs : List JVal)
  | obj (kvs : List (String × JVal))

/-- Python `d.get(k)` / `d[k]` on an association-list dict (first match). -/
def dictGet {α : Type} (d : List (String × α)) (k : String) : Option α :=
  match d with
  | [] => none
  | (k2, v) :: rest => if k2 == k then some v else dictGet rest k

/-- Python `d[k] = v` on an association-list dict: replace in place or append. -/
def dictSet {α : Type} (d : List (String × α)) (k : String) (v : α) :
    List (String × α) :=
  match d with
  | [] => [(k, v)]
  | (k2, w) :: rest => if k2 == k then (k, v) :: rest else (k2, w) :: dictSet rest k v

mutual
/-- Python `==` on modelled values: `True == 1`, `1 == 1`, cross-type
comparisons are `False`, containers compare element-wise (dicts in their
canonical representation). -/
def pyEq : JVal → JVal → Bool
  | .null, .null => true
  | .b x, .b y => x == y
  | .b x, .i n => (if x then (1 : Int) else 0) == n
  | .i n, .b x => n == (if x then (1 : Int) else 0)
  | .i m, .i n => m == n
  | .s a, .s b => a == b
  | .arr as, .arr bs => pyEqList as bs
  | .obj as, .obj bs => pyEqKV as bs
  | _, _ => false

/-- Element-wise Python `==` on lists. -/
def pyEqList : List JVal → List JVal → Bool
  | [], [] => true
  | a :: as, b :: bs => pyEq a b && pyEqList as bs
  | _, _ => false

/-- Entry-wise Python `==` on canonical dict association lists. -/
def pyEqKV : List (String × JVal) → List (String × JVal) → Bool
  | [], [] => true
  | (k, a) :: as, (l, b) :: bs => k == l && pyEq a b && pyEqKV as bs
  | _, _ => false
end

/-- Python truthiness: `bool(v)`. -/
def pyTruthy : JVal → Bool
  | .null => false
  | .b x => x
  | .i n => n != 0
  | .s v => !v.isEmpty
  | .arr vs => !vs.isEmpty
  | .obj kvs => !kvs.isEmpty

/-- Whether `hash(v)` succeeds in Python: lists and dicts are unhashable. -/
def pyHashable : JVal → Bool
  | .arr _ => false
  | .obj _ => false
  | _ => true

/-- ASCII lowering of a character, modelling Python `str.lower` on the
ASCII strings the operator handles. -/
def charLower (c : Char) : Char := c.toLower

/-- Python `s.lower()` (ASCII model). -/
def strLower (str : String) : String := ⟨str.data.map charLower⟩

/-- Split a character list on a separator character; like Python
`str.split(sep)`, the empty input yields one empty part. -/
def splitOnChar (c : Char) (l : List Char) : List (List Char) :=
  match l with
  | [] => [[]]
  | ch :: rest =>
    let r := splitOnChar c rest
    if ch == c then [] :: r
    else match r with
      | [] => [[ch]]
      | hd :: tl => (ch :: hd) :: tl

/-- Python `field_path.split(".")`. -/
def splitDots (str : String) : List String :=
  (splitOnChar (Char.ofNat 46) str.data).map List.asString

/-- Boolean list-prefix test. -/
def isPrefixL : List Char → List Char → Bool
  | [], _ => true
  | _ :: _, [] => false
  | a :: as, b :: bs => a == b && isPrefixL as bs

/-- Boolean substring test on character lists. -/
def containsSub (hay needle : List Char) : Bool :=
  match hay with
  | [] => isPrefixL needle []
  | _ :: rest => isPrefixL needle hay || containsSub rest needle

/-- Python `needle in hay` on strings. -/
def strContains (hay needle : String) : Bool := containsSub hay.data needle.data

/-- Decimal digits of a natural number, most significant first. -/
def natDigits (n : Nat) : List Char :=
  let rec go : Nat → Nat → List Char → List Char
    | 0, _, acc => acc
    | f + 1, m, acc =>
      if m == 0 then acc
      else go f (m / 10) (Char.ofNat (48 + m % 10) :: acc)
  if n == 0 then [Char.ofNat 48] else go n n []

/-- Rendering of a Python `int` (also used for JSON integers). -/
def intToString (n : Int) : String :=
  if n < 0 then ⟨Char.ofNat 45 :: natDigits n.natAbs⟩ else ⟨natDigits n.natAbs⟩

/-- Parse a list of decimal digit characters. -/
def parseDigits : List Char → Option Nat
  | [] => none
  | l => l.foldl (fun acc c =>
      match acc with
      | none => none
      | some v => if c.isDigit then some (v * 10 + (c.toNat - 48)) else none)
      (some 0)

/-- Python `float(s)` on a string, modelled for plain decimal literals:
optional sign, digits with at most one dot (at least one digit overall).
Exponent notation, inf/nan and underscores are outside the model. -/
def parseFloat (str : String) : Option ℚ :=
  let l := (str.data.dropWhile (· == Char.ofNat 32)).reverse
    |>.dropWhile (· == Char.ofNat 32) |>.reverse
  let (neg, body) :=
    match l with
    | c :: rest =>
      if c == Char.ofNat 45 then (true, rest)
      else if c == Char.ofNat 43 then (false, rest) else (false, l)
    | [] => (false, [])
  let value : Option ℚ :=
    match splitOnChar (Char.ofNat 46) body with
    | [ip] => (parseDigits ip).map (fun n => (n : ℚ))
    | [ip, fp] =>
      if ip.isEmpty && fp.isEmpty then none
      else if ip.isEmpty then (parseDigits fp).map (fun f => (f : ℚ) / 10 ^ fp.length)
      else if fp.isEmpty then (parseDigits ip).map (fun n => (n : ℚ))
      else match parseDigits ip, parseDigits fp with
        | some n, some f => some ((n : ℚ) + (f : ℚ) / 10 ^ fp.length)
        | _, _ => none
    | _ => none
  value.map (fun q => if neg then -q else q)

/-- Python `float(v)`: ints and bools convert, numeric strings parse,
everything else raises (`none`). -/
def pyFloat : JVal → Option ℚ
  | .i n => some (n : ℚ)
  | .b x => some (if x then 1 else 0)
  | .s v => parseFloat v
  | _ => none

mutual
/-- Python `str(v)` for modelled values (`str` of a container uses `repr`
of its elements). -/
def pyStr : JVal → String
  | .null => "None"
  | .b true => "True"
  | .b false => "False"
  | .i n => intToString n
  | .s v => v
  | .arr vs => "[" ++ pyReprList vs ++ "]"
  | .obj kvs => "\x7b" ++ pyReprKV kvs ++ "\x7d"

/-- Python `repr(v)`: strings gain quotes, other values render as `str`. -/
def pyRepr : JVal → String
  | .s v => "\x27" ++ v ++ "\x27"
  | .null => "None"
  | .b true => "True"
  | .b false => "False"
  | .i n => intToString n
  | .arr vs => "[" ++ pyReprList vs ++ "]"
  | .obj kvs => "\x7b" ++ pyReprKV kvs ++ "\x7d"

/-- Comma-joined `repr` of list elements. -/
def pyReprList : List JVal → String
  | [] => ""
  | [v] => pyRepr v
  | v :: rest => pyRepr v ++ ", " ++ pyReprList rest

/-- Comma-joined `repr` of dict entries. -/
def pyReprKV : List (String × JVal) → String
  | [] => ""
  | [(k, v)] => "\x27" ++ k ++ "\x27: " ++ pyRepr v
  | (k, v) :: rest => "\x27" ++ k ++ "\x27: " ++ pyRepr v ++ ", " ++ pyReprKV rest
end

/-!  State store (src/kco_operator/monitors/state.py) -/

mutual
/-- Canonical JSON serialization, modelling
`json.dumps(data, sort_keys=True, separators=(",", ":"))` on data in
canonical dict representation (keys already sorted).  String escaping is
not modelled (the operator's keys and values are plain text). -/
def serialize : JVal → String
  | .null => "null"
  | .b true => "true"
  | .b false => "false"
  | .i n => intToString n
  | .s v => "\"" ++ v ++ "\""
  | .arr vs => "[" ++ serializeList vs ++ "]"
  | .obj kvs => "\x7b" ++ serializeKV kvs ++ "\x7d"

/-- Comma-separated serialization of array elements. -/
def serializeList : List JVal → String
  | [] => ""
  | [v] => serialize v
  | v :: rest => serialize v ++ "," ++ serializeList rest

/-- Comma-separated serialization of dict entries. -/
def serializeKV : List (String × JVal) → String
  | [] => ""
  | [(k, v)] => "\"" ++ k ++ "\":" ++ serialize v
  | (k, v) :: rest => "\"" ++ k ++ "\":" ++ serialize v ++ "," ++ serializeKV rest
end

/-- `StateSnapshot`: timestamp, data, checksum.  The SHA-256 hex digest is
modelled by the canonical serialization itself (checksum equality is
serialization equality; the spec's collision-resistance requirement). -/
structure StateSnapshot where
  timestamp : ℚ
  data : List (String × JVal)
  checksum : String

/-- `StateSnapshot.create(data)` at an explicit current time. -/
def StateSnapshot.create (data : List (String × JVal)) (now : ℚ) : StateSnapshot :=
  ⟨now, data, serialize (JVal.obj data)⟩

theorem dictGet_sizeOf {d : List (String × JVal)} {k : String} {v : JVal}
    (h : dictGet d k = some v) : sizeOf v < sizeOf d := by
  induction d with
  | nil => simp [dictGet] at h
  | cons hd tl ih =>
    simp only [dictGet] at h
    split at h
    · cases h
      cases hd
      simp
      omega
    · have := ih h
      simp
      omega

/-- First loop of `StateManager._find_changed_fields`: keys of the old dict
absent from the new dict, reported at the current path. -/
def removed_keys (old_data new_data : List (String × JVal)) (path : String) :
    List String :=
  ((old_data.map Prod.fst).filter (fun k => (dictGet new_data k).isNone)).map
    (fun k => if path == "" then k else path ++ "." ++ k)

/-- Second loop of `StateManager._find_changed_fields`: added keys, value
changes, and the recursive descent when both sides are dicts (the recursive
call re-runs both loops, i.e. the whole of `_find_changed_fields`). -/
def changed_new (old_data : List (String × JVal)) :
    List (String × JVal) → String → List String
  | [], _ => []
  | (key, new_value) :: rest, path =>
    let current_path := if path == "" then key else path ++ "." ++ key
    (match h : dictGet old_data key with
     | none => [current_path]
     | some old_value =>
       match old_value, new_value with
       | .obj okvs, .obj nkvs =>
         removed_keys okvs nkvs current_path ++ changed_new okvs nkvs current_path
       | o, n => if pyEq o n then [] else [current_path])
    ++ changed_new old_data rest path
termination_by l => sizeOf old_data + sizeOf l
decreasing_by
  all_goals simp_wf
  all_goals try (have h1 := dictGet_sizeOf h; simp at h1)
  all_goals simp
  all_goals omega

/-- `StateManager._find_changed_fields(old_data, new_data, path)`: the set
of dotted paths at which the two trees differ (removed keys, added keys,
changed non-dict values; dict-vs-dict recurses). -/
def find_changed_fields (old_data new_data : List (String × JVal))
    (path : String := "") : List String :=
  removed_keys old_data new_data path ++ changed_new old_data new_data path

/-- `StateChange` (monitors/state.py). -/
structure StateChange where
  tapp_name : String
  nspace : String
  old_snapshot : Option StateSnapshot
  new_snapshot : StateSnapshot
  changed_fields : List String

/-- `StateChange.is_initial`. -/
def StateChange.is_initial (sc : StateChange) : Bool := sc.old_snapshot.isNone

/-- `StateChange.has_changes`. -/
def StateChange.has_changes (sc : StateChange) : Bool :=
  sc.is_initial || !sc.changed_fields.isEmpty

/-- `StateManager.update_state(namespace, name, new_data)` at an explicit
time: snapshot the new data, diff against the prior snapshot only when the
checksums differ, store the new snapshot, and return the `StateChange`. -/
def update_state (states : List (String × StateSnapshot)) (nspace name : String)
    (new_data : List (String × JVal)) (now : ℚ) :
    List (String × StateSnapshot) × StateChange :=
  let state_key := nspace ++ "/" ++ name
  let old_snapshot := dictGet states state_key
  let new_snapshot := StateSnapshot.create new_data now
  let changed_fields :=
    match old_snapshot with
    | some o =>
      if o.checksum == new_snapshot.checksum then []
      else find_changed_fields o.data new_snapshot.data
    | none => []
  (dictSet states state_key new_snapshot,
   ⟨name, nspace, old_snapshot, new_snapshot, changed_fields⟩)

/-!  Trigger evaluation (src/kco_operator/actions/base.py) -/

/-- `ActionHandler._get_nested_value(data, field_path)`: walk the
dot-separated path, returning `none` (Python `None`) when a component is
missing or the current value is not a dict; never raises. -/
def get_nested_value (data : List (String × JVal)) (field_path : String) :
    Option JVal :=
  let rec go : JVal → List String → Option JVal
    | v, [] => some v
    | .obj d, part :: rest =>
      match dictGet d part with
      | some v => go v rest
      | none => none
    | _, _ :: _ => none
  go (.obj data) (splitDots field_path)

/-- The lookup `_get_nested_value(data, field or "")` as invoked with a
truthy `field` of any type: a non-string field makes `field_path.split`
raise inside the helper, which catches every exception and returns `None`.
A `None` result and a looked-up JSON `null` are the same Python value. -/
def get_nested_value_any (data : List (String × JVal)) (field_v : JVal) : JVal :=
  match field_v with
  | .s p => (get_nested_value data p).getD .null
  | _ => .null

/-- Python `v or 0`, as applied to both operands of the numeric trigger
conditions: falsy values (None, False, 0, empty string/list/dict) are
replaced by the int 0 before `float()` conversion. -/
def or_zero (v : JVal) : JVal := if pyTruthy v then v else .i 0

/-- The condition dispatch at the end of
`ActionHandler._evaluate_trigger_condition`, with the current value already
looked up (`current_value` is `JVal.null` for an absent value, exactly as
in Python).  Unknown conditions evaluate to `false`. -/
def eval_condition (condition current_value expected_value : JVal) : Bool :=
  if pyEq condition (.s "equals") then pyEq current_value expected_value
  else if pyEq condition (.s "not_equals") then !pyEq current_value expected_value
  else if pyEq condition (.s "greater_than") then
    match pyFloat (or_zero current_value), pyFloat (or_zero expected_value) with
    | some a, some b => decide (b < a)
    | _, _ => false
  else if pyEq condition (.s "less_than") then
    match pyFloat (or_zero current_value), pyFloat (or_zero expected_value) with
    | some a, some b => decide (a < b)
    | _, _ => false
  else if pyEq condition (.s "contains") then
    strContains (pyStr current_value) (pyStr expected_value)
  else if pyEq condition (.s "exists") then
    match current_value with | .null => false | _ => true
  else if pyEq condition (.s "not_exists") then
    match current_value with | .null => true | _ => false
  else false

/-- Python `field in changed_fields` for a set of strings: membership by
Python equality (a non-string field never matches). -/
def pyMem (v : JVal) (l : List String) : Bool := l.any (fun str => pyEq v (.s str))

/-- `ActionHandler._evaluate_trigger_condition(state_change,
trigger_config)`.  Returns `Except.error` where the Python code raises: the
set-membership test `field not in changed_fields` hashes the field, which
raises `TypeError` for an unhashable (list/dict) field; that test is only
reached on non-initial changes with a truthy field and condition. -/
def evaluate_trigger_condition (state_change : StateChange)
    (trigger_config : List (String × JVal)) : Except String Bool :=
  let field := (dictGet trigger_config "field").getD .null
  let condition := (dictGet trigger_config "condition").getD .null
  let expected_value := (dictGet trigger_config "value").getD .null
  if !(pyTruthy field && pyTruthy condition) then .ok false
  else if !state_change.is_initial && !pyHashable field then
    .error "TypeError: unhashable type"
  else if !state_change.is_initial && !pyMem field state_change.changed_fields then
    .ok false
  else
    .ok (eval_condition condition
      (get_nested_value_any state_change.new_snapshot.data field) expected_value)

/-!  Event generation (src/kco_operator/events/generator.py) -/

/-- `EventGenerator._get_field_value(data, field_path)`: the same dotted
walk as `_get_nested_value`, rendered for display; a missing component or a
`None` value yields the string "null". -/
def get_field_value (data : List (String × JVal)) (field_path : String) : String :=
  match get_nested_value data field_path with
  | some .null => "null"
  | some v => pyStr v
  | none => "null"

/-- The warning-indicating field names of `_determine_event_type`. -/
def warning_fields : List String :=
  ["health", "status", "error", "errors", "failed", "failure"]

/-- The problem words checked against the new value in
`_determine_event_type`. -/
def summary_bad_words : List String := ["error", "failed", "unhealthy", "down"]

/-- `EventGenerator._determine_event_type(changed_fields, state_change)`:
Warning iff some changed path contains a warning field name as a substring
of the whole lowercased dotted path and the value at that path (always a
string, produced by `_get_field_value`) is non-empty and contains a problem
word case-insensitively. -/
def determine_event_type (changed_fields : List String)
    (new_data : List (String × JVal)) : String :=
  if changed_fields.any (fun field =>
      let field_lower := strLower field
      warning_fields.any (fun w => strContains field_lower w) &&
        (let current_value := get_field_value new_data field
         !current_value.isEmpty &&
           summary_bad_words.any (fun bad => strContains (strLower current_value) bad)))
  then "Warning" else "Normal"

/-- `EventGenerator._is_problematic_value(value)`. -/
def is_problematic_value (value : String) : Bool :=
  !value.isEmpty &&
    (["error", "failed", "failure", "unhealthy", "down",
      "critical", "fatal", "exception", "timeout"]).any
      (fun keyword => strContains (strLower value) keyword)

/-- The reason table of `_generate_specific_field_events`. -/
def critical_fields : List (String × String) :=
  [("health", "HealthStatusChanged"), ("status", "StatusChanged"),
   ("error", "ErrorStateChanged"), ("errors", "ErrorsDetected")]

/-- `EventGenerator._generate_specific_field_events`: one (reason, type)
pair per changed path whose lowercased leaf name is a critical field. -/
def specific_field_events (sc : StateChange) : List (String × String) :=
  sc.changed_fields.filterMap (fun field =>
    let field_name := strLower (((splitDots field).getLast? ).getD "")
    match dictGet critical_fields field_name with
    | some reason =>
      let new_value := get_field_value sc.new_snapshot.data field
      some (reason, if is_problematic_value new_value then "Warning" else "Normal")
    | none => none)

/-- The (reason, type) pairs of the events that
`EventGenerator.generate_state_change_event(state_change)` attempts to
create (before deduplication): one initial event, or a summary event
followed by the specific field events, or nothing. -/
def generate_state_change_event (sc : StateChange) : List (String × String) :=
  if sc.is_initial then [("InitialStateDetected", "Normal")]
  else if sc.has_changes then
    (if sc.changed_fields.length == 1 then "StateFieldChanged" else "StateChanged",
     determine_event_type sc.changed_fields sc.new_snapshot.data)
    :: specific_field_events sc
  else []

/-!  Event deduplication (src/kco_operator/events/generator.py) -/

/-- `EventGenerator._get_event_key(namespace, tapp_name, reason, message)`.
Python `hash(message)` is modelled by the message itself (an injective
stand-in). -/
def get_event_key (nspace tapp_name reason message : String) : String :=
  nspace ++ "/" ++ tapp_name ++ "/" ++ reason ++ "/" ++ message

/-- `EventGenerator._should_create_event(event_key)` at an explicit time
over an explicit cache: sweep entries older than the 300-second window,
then suppress if the key is still cached, else record it.  Returns whether
the event should be created together with the updated cache. -/
def should_create_event (cache : List (String × ℚ)) (event_key : String)
    (now : ℚ) : Bool × List (String × ℚ) :=
  let cutoff := now - 300
  let cleaned := cache.filter (fun kv => !(kv.2 < cutoff))
  match dictGet cleaned event_key with
  | some _ => (false, cleaned)
  | none => (true, dictSet cleaned event_key now)

/-!  Action registry (src/kco_operator/actions/registry.py) and the poll
cycle (src/kco_operator/monitors/controller.py) -/

/-- `ActionStatus`. -/
inductive ActionStatus where
  | success
  | failed
  | timeout
  | skipped
deriving DecidableEq

/-- `ActionRegistry.execute_action(action_name, context)` for one configured
action, abstracting over whether a handler is registered under the name and
over the effector's own outcome `exec_status` (success/failed/timeout).
Every built-in handler's `can_handle` is exactly
`_evaluate_trigger_condition`; an exception from it is caught and mapped to
`failed`.  Returns the result status and whether the effector's `execute`
ran. -/
def execute_action (registered : Bool) (sc : StateChange)
    (trigger_config : List (String × JVal)) (exec_status : ActionStatus) :
    ActionStatus × Bool :=
  if !registered then (.failed, false)
  else
    match evaluate_trigger_condition sc trigger_config with
    | .error _ => (.failed, false)
    | .ok false => (.skipped, false)
    | .ok true => (exec_status, true)

/-- The event-emission part of `TAppMonitor._poll_and_process` after a
successful query: the event generator is invoked only when
`state_change.has_changes or state_change.is_initial`. -/
def poll_cycle_events (sc : StateChange) : List (String × String) :=
  if sc.has_changes || sc.is_initial then generate_state_change_event sc else []

/-!  Rate limiter (src/kco_operator/utils/rate_limiter.py) -/

/-- `RateLimitBucket`. -/
structure RateLimitBucket where
  capacity : Nat
  tokens : ℚ
  last_refill : ℚ
  refill_rate : ℚ

/-- `RateLimitBucket.consume(tokens)` at an explicit current time: refill
from the elapsed time, cap at capacity, then consume if enough tokens are
available.  Returns success together with the updated bucket. -/
def RateLimitBucket.consume (b : RateLimitBucket) (tokens : Nat) (now : ℚ) :
    Bool × RateLimitBucket :=
  let elapsed := now - b.last_refill
  let refilled := min (b.capacity : ℚ) (b.tokens + elapsed * b.refill_rate)
  if (tokens : ℚ) ≤ refilled then
    (true, ⟨b.capacity, refilled - tokens, now, b.refill_rate⟩)
  else
    (false, ⟨b.capacity, refilled, now, b.refill_rate⟩)

/-- `RateLimiter._get_or_create_bucket(key)` for a limiter configured with
`requests_per_minute`: on a miss, create a full bucket with
`capacity = max(10, requests_per_minute // 6)` and
`refill_rate = requests_per_minute / 60`. -/
def get_or_create_bucket (buckets : List (String × RateLimitBucket))
    (key : String) (requests_per_minute : Nat) (now : ℚ) :
    List (String × RateLimitBucket) × RateLimitBucket :=
  match dictGet buckets key with
  | some b => (buckets, b)
  | none =>
    let capacity := max 10 (requests_per_minute / 6)
    let b : RateLimitBucket :=
      ⟨capacity, (capacity : ℚ), now, (requests_per_minute : ℚ) / 60⟩
    (dictSet buckets key b, b)

/-- `RateLimiter.acquire` with `timeout=0`: one immediate `consume`; a
falsy timeout returns `False` without waiting. -/
def acquire_no_wait (b : RateLimitBucket) (now : ℚ) : Bool × RateLimitBucket :=
  b.consume 1 now

/-- The successive results of repeated immediate acquisitions at a fixed
time. -/
def consume_seq (b : RateLimitBucket) (now : ℚ) : Nat → List Bool
  | 0 => []
  | k + 1 =>
    let (ok, b1) := acquire_no_wait b now
    ok :: consume_seq b1 now k

/-!  Query client (src/kco_operator/monitors/graphql.py) -/

/-- The outcome of one query attempt.  `transport_error` models
`TransportServerError` (connection/TLS/server errors), `logical_error`
models `TransportQueryError` (a GraphQL-level error response), and
`other_error` the generic `except Exception` branch. -/
inductive QueryOutcome where
  | success (data : List (String × JVal))
  | transport_error (msg : String)
  | logical_error (msg : String)
  | other_error (msg : String)

/-- Whether an attempt outcome is a failure. -/
def QueryOutcome.is_failure : QueryOutcome → Bool
  | .success _ => false
  | _ => true

/-- The message carried by a failing outcome. -/
def QueryOutcome.error_msg : QueryOutcome → String
  | .success _ => ""
  | .transport_error m => m
  | .logical_error m => m
  | .other_error m => m

/-- The retry loop of `GraphQLMonitor.query`: `for attempt in
range(max_retries + 1)`, where the outcome of attempt `k` is
`outcomes k`.  Both `except` branches behave identically: re-raise on the
last attempt, otherwise back off and retry.  Returns the result together
with the number of attempts executed. -/
def query_go (outcomes : Nat → QueryOutcome) (max_retries : Nat) :
    Nat → Nat → Except String (List (String × JVal)) × Nat
  | attempt, 0 => (.error "Query failed after all retries", attempt)
  | attempt, fuel + 1 =>
    match outcomes attempt with
    | .success d => (.ok d, attempt + 1)
    | .transport_error m =>
      if attempt == max_retries then (.error m, attempt + 1)
      else query_go outcomes max_retries (attempt + 1) fuel
    | .logical_error m =>
      if attempt == max_retries then (.error m, attempt + 1)
      else query_go outcomes max_retries (attempt + 1) fuel
    | .other_error m =>
      if attempt == max_retries then (.error m, attempt + 1)
      else query_go outcomes max_retries (attempt + 1) fuel

/-- `GraphQLMonitor.query` over a given schedule of attempt outcomes. -/
def query_run (outcomes : Nat → QueryOutcome) (max_retries : Nat) :
    Except String (List (String × JVal)) × Nat :=
  query_go outcomes max_retries 0 (max_retries + 1)

/-!  Configuration (src/kco_operator/config/settings.py and
MonitoringController.start_monitoring in monitors/controller.py) -/

/-- `ActionConfig`. -/
structure ActionConfig where
  trigger : List (String × JVal)
  action : String
  parameters : List (String × JVal)

/-- `TAppConfig` after validation. -/
structure TAppConfig where
  selector : List (String × JVal)
  graphql_endpoint : String
  polling_interval : Int
  state_query : String
  actions : List ActionConfig
  timeout : Int
  max_retries : Int

/-- The `converted_spec` dictionary built by
`MonitoringController.start_monitoring`: each value is read from the
camelCase key of the incoming spec, with the documented default on a
miss. -/
def converted_spec (spec : List (String × JVal)) : List (String × JVal) :=
  [("selector", (dictGet spec "selector").getD (.obj [])),
   ("graphql_endpoint", (dictGet spec "graphqlEndpoint").getD (.s "/graphql")),
   ("polling_interval", (dictGet spec "pollingInterval").getD (.i 30)),
   ("state_query", (dictGet spec "stateQuery").getD (.s "")),
   ("actions", (dictGet spec "actions").getD (.arr [])),
   ("timeout", (dictGet spec "timeout").getD (.i 10)),
   ("max_retries", (dictGet spec "maxRetries").getD (.i 3))]

/-- Validation of one `ActionConfig` entry: `trigger` (dict, required),
`action` (string, required), `parameters` (dict, defaulted). -/
def validate_action_config : JVal → Option ActionConfig
  | .obj kvs =>
    match dictGet kvs "trigger", dictGet kvs "action" with
    | some (.obj t), some (.s a) =>
      match dictGet kvs "parameters" with
      | some (.obj p) => some ⟨t, a, p⟩
      | none => some ⟨t, a, []⟩
      | some _ => none
    | _, _ => none
  | _ => none

/-- `TAppConfig.model_validate` on the converted spec: field types and the
declared numeric ranges (`polling_interval` in [5, 3600], `timeout` in
[1, 60], `max_retries` in [0, 10]).  Pydantic's lax scalar coercions are
outside the model. -/
def tapp_config_validate (cs : List (String × JVal)) : Option TAppConfig :=
  match dictGet cs "selector", dictGet cs "graphql_endpoint",
      dictGet cs "polling_interval", dictGet cs "state_query",
      dictGet cs "actions", dictGet cs "timeout", dictGet cs "max_retries" with
  | some (.obj sel), some (.s ge), some (.i pi), some (.s sq),
      some (.arr acts), some (.i tmo), some (.i mr) =>
    if 5 ≤ pi ∧ pi ≤ 3600 ∧ 1 ≤ tmo ∧ tmo ≤ 60 ∧ 0 ≤ mr ∧ mr ≤ 10 then
      (acts.mapM validate_action_config).map
        (fun parsed => ⟨sel, ge, pi, sq, parsed, tmo, mr⟩)
    else none
  | _, _, _, _, _, _, _ => none

/-- The configuration-translation core of
`MonitoringController.start_monitoring(namespace, name, spec)`: build
`converted_spec` from the camelCase keys and validate it into a
`TAppConfig` (`none` when validation raises and no monitor is created). -/
def start_monitoring_config (spec : List (String × JVal)) : Option TAppConfig :=
  tapp_config_validate (converted_spec spec)

/-!  Theorems -/

/-- A bucket holding an integral token count `j ≤ capacity`, refilled at the
same instant as its last refill (zero elapsed time), yields exactly `j`
successful immediate acquisitions followed by a failure. -/
theorem consume_seq_drain (c : Nat) (now rr : ℚ) :
    ∀ j : Nat, j ≤ c →
      consume_seq ⟨c, (j : ℚ), now, rr⟩ now (j + 1)
        = List.replicate j true ++ [false] := by
  intro j
  induction j with
  | zero =>
    intro _
    have h0 : min (c : ℚ) ((0 : ℚ) + (now - now) * rr) = 0 := by
      rw [sub_self, zero_mul, add_zero]
      exact min_eq_right (by positivity)
    have hcons : RateLimitBucket.consume ⟨c, (0 : ℚ), now, rr⟩ 1 now
        = (false, ⟨c, (0 : ℚ), now, rr⟩) := by
      simp only [RateLimitBucket.consume, h0]
      rw [if_neg (by norm_num)]
    rw [Nat.cast_zero]
    simp [consume_seq, acquire_no_wait, hcons]
  | succ j ih =>
    intro hj
    have hjc : ((j : ℚ) + 1) ≤ (c : ℚ) := by exact_mod_cast hj
    have hmin : min (c : ℚ) (((j : ℚ) + 1) + (now - now) * rr) = (j : ℚ) + 1 := by
      rw [sub_self, zero_mul, add_zero]
      exact min_eq_right hjc
    have hcons : RateLimitBucket.consume ⟨c, ((j : ℚ) + 1), now, rr⟩ 1 now
        = (true, ⟨c, (j : ℚ), now, rr⟩) := by
      simp only [RateLimitBucket.consume, hmin]
      rw [if_pos (by push_cast; linarith [Nat.cast_nonneg (α := ℚ) j])]
      norm_num
    have hcast : (((j + 1 : Nat)) : ℚ) = (j : ℚ) + 1 := by push_cast; ring
    rw [hcast]
    show consume_seq ⟨c, (j : ℚ) + 1, now, rr⟩ now (j + 1 + 1)
        = List.replicate (j + 1) true ++ [false]
    calc consume_seq ⟨c, (j : ℚ) + 1, now, rr⟩ now (j + 1 + 1)
        = true :: consume_seq ⟨c, (j : ℚ), now, rr⟩ now (j + 1) := by
          simp [consume_seq, acquire_no_wait, hcons]
      _ = true :: (List.replicate j true ++ [false]) := by
          rw [ih (Nat.le_of_succ_le hj)]
      _ = List.replicate (j + 1) true ++ [false] := by
          simp [List.replicate_succ]

/-- C7: the first acquisition for a tenant key creates a bucket with
capacity max(10, rpm // 6), a full token count and refill rate rpm/60;
starting from that full bucket, immediate zero-timeout acquisitions of one
token at the creation instant (no elapsed refill time) succeed exactly
`capacity` consecutive times, and the (capacity+1)-th returns false. -/
theorem c7_rate_limiter_burst (buckets : List (String × RateLimitBucket))
    (key : String) (rpm : Nat) (now : ℚ)
    (h : (dictGet buckets key).isNone = true) :
    (get_or_create_bucket buckets key rpm now).2.capacity = max 10 (rpm / 6) ∧
    (get_or_create_bucket buckets key rpm now).2.tokens
      = ((max 10 (rpm / 6) : Nat) : ℚ) ∧
    (get_or_create_bucket buckets key rpm now).2.refill_rate = (rpm : ℚ) / 60 ∧
    consume_seq (get_or_create_bucket buckets key rpm now).2 now
        (max 10 (rpm / 6) + 1)
      = List.replicate (max 10 (rpm / 6)) true ++ [false] := by
  have h' : dictGet buckets key = none := Option.isNone_iff_eq_none.mp h
  simp only [get_or_create_bucket, h']
  refine ⟨trivial, trivial, trivial, ?_⟩
  exact consume_seq_drain _ now _ _ (le_refl _)

/-- C7 witness: a limiter configured at 100 requests per minute creates a
bucket of capacity 16 that admits 16 immediate acquisitions and rejects
the 17th. -/
theorem c7_rate_limiter_burst_witness :
    (get_or_create_bucket [] "default/my-app" 100 0).2.capacity = max 10 (100 / 6) ∧
    (get_or_create_bucket [] "default/my-app" 100 0).2.tokens
      = ((max 10 (100 / 6) : Nat) : ℚ) ∧
    (get_or_create_bucket [] "default/my-app" 100 0).2.refill_rate = (100 : ℚ) / 60 ∧
    consume_seq (get_or_create_bucket [] "default/my-app" 100 0).2 0
        (max 10 (100 / 6) + 1)
      = List.replicate (max 10 (100 / 6)) true ++ [false] :=
  c7_rate_limiter_burst [] "default/my-app" 100 0 rfl

/-- C8: starting from an empty dedup cache, an event with a given
(namespace, name, reason, message) key is created on the first attempt;
a second attempt at any time within the 300-second window is suppressed
(so the cluster event is created exactly once), while an attempt after the
window has fully elapsed is created again. -/
theorem c8_dedup_window (nspace name reason message : String) (t0 t1 t2 : ℚ)
    (h1 : t1 ≤ t0 + 300) (h2 : t0 + 300 < t2) :
    (should_create_event [] (get_event_key nspace name reason message) t0).1
      = true ∧
    (should_create_event
        (should_create_event [] (get_event_key nspace name reason message) t0).2
        (get_event_key nspace name reason message) t1).1 = false ∧
    (should_create_event
        (should_create_event [] (get_event_key nspace name reason message) t0).2
        (get_event_key nspace name reason message) t2).1 = true := by
  have hfirst : should_create_event [] (get_event_key nspace name reason message) t0
      = (true, [(get_event_key nspace name reason message, t0)]) := by
    simp [should_create_event, dictGet, dictSet]
  refine ⟨by rw [hfirst], ?_, ?_⟩
  · rw [hfirst]
    have hkeep : ¬ (t0 < t1 - 300) := by linarith
    simp [should_create_event, dictGet, hkeep]
  · rw [hfirst]
    have hdrop : t0 < t2 - 300 := by linarith
    simp [should_create_event, dictGet, hdrop]

/-- C8 witness: an event created at time 0 is suppressed on re-emission at
time 100 and created again at time 301. -/
theorem c8_dedup_window_witness :
    (should_create_event [] (get_event_key "default" "my-app" "StateChanged" "m") 0).1
      = true ∧
    (should_create_event
        (should_create_event []
          (get_event_key "default" "my-app" "StateChanged" "m") 0).2
        (get_event_key "default" "my-app" "StateChanged" "m") 100).1 = false ∧
    (should_create_event
        (should_create_event []
          (get_event_key "default" "my-app" "StateChanged" "m") 0).2
        (get_event_key "default" "my-app" "StateChanged" "m") 301).1 = true :=
  c8_dedup_window "default" "my-app" "StateChanged" "m" 0 100 301
    (by norm_num) (by norm_num)

/-- Replace every logical (GraphQL-level) error outcome by a transport
error with the same message, leaving other outcomes unchanged. -/
def reclassify (outcomes : Nat → QueryOutcome) : Nat → QueryOutcome :=
  fun n =>
    match outcomes n with
    | .logical_error m => .transport_error m
    | o => o

theorem query_go_reclassify (outcomes : Nat → QueryOutcome) (max_retries : Nat) :
    ∀ fuel attempt,
      query_go (reclassify outcomes) max_retries attempt fuel
        = query_go outcomes max_retries attempt fuel := by
  intro fuel
  induction fuel with
  | zero => intro attempt; rfl
  | succ f ih =>
    intro attempt
    simp only [query_go, reclassify]
    cases outcomes attempt <;> simp [ih]

theorem query_go_all_fail (outcomes : Nat → QueryOutcome) (max_retries : Nat)
    (hall : ∀ i, i ≤ max_retries → (outcomes i).is_failure = true) :
    ∀ fuel attempt, attempt + fuel = max_retries + 1 → attempt ≤ max_retries →
      query_go outcomes max_retries attempt fuel
        = (.error ((outcomes max_retries).error_msg), max_retries + 1) := by
  intro fuel
  induction fuel with
  | zero =>
    intro attempt hsum hle
    omega
  | succ f ih =>
    intro attempt hsum hle
    have hfail := hall attempt hle
    rcases hout : outcomes attempt with d | m | m | m
    · rw [hout] at hfail
      simp [QueryOutcome.is_failure] at hfail
    all_goals (
      simp only [query_go, hout]
      by_cases hlast : attempt = max_retries
      · subst hlast
        simp only [beq_self_eq_true, if_true]
        rw [hout]
        rfl
      · have hne : (attempt == max_retries) = false := by
          simp [hlast]
        rw [hne]
        simp only [Bool.false_eq_true, if_false]
        exact ih (attempt + 1) (by omega) (by omega))

/-- C3 counterexample: with max_retries = 1, a logical query error
(malformed query response) on the first attempt is retried rather than
surfaced immediately: the call returns the second attempt's success after
executing two attempts. -/
theorem c3_counterexample :
    query_run
      (fun n => if n == 0 then QueryOutcome.logical_error "malformed query response"
                else QueryOutcome.success [])
      1
      = (.ok [], 2) := rfl

/-- C3 amended: the retry loop treats all failure classes identically:
reclassifying logical errors as transport errors never changes the result,
and when every attempt up to max_retries fails (of any class) the call
executes max_retries + 1 attempts and surfaces the last attempt's error. -/
theorem c3_amended_uniform_retry :
    (∀ outcomes max_retries,
      query_run (reclassify outcomes) max_retries
        = query_run outcomes max_retries) ∧
    (∀ outcomes max_retries,
      (∀ i, i ≤ max_retries → (QueryOutcome.is_failure (outcomes i)) = true) →
      query_run outcomes max_retries
        = (.error (QueryOutcome.error_msg (outcomes max_retries)),
           max_retries + 1)) := by
  constructor
  · intro outcomes max_retries
    exact query_go_reclassify outcomes max_retries (max_retries + 1) 0
  · intro outcomes max_retries hall
    exact query_go_all_fail outcomes max_retries hall (max_retries + 1) 0
      (by omega) (by omega)

/-- C3 witness: three consecutive logical errors with max_retries = 2 end
in the third attempt's error after three attempts. -/
theorem c3_amended_witness :
    query_run (fun _ => QueryOutcome.logical_error "malformed") 2
      = (.error "malformed", 3) :=
  c3_amended_uniform_retry.2 (fun _ => QueryOutcome.logical_error "malformed") 2
    (fun _ _ => rfl)

/-- C2 counterexample: updating a tenant that holds {"a": 1} with
{"a": true} produces different checksums (the canonical serializations
"(\x7b)\"a\":1(\x7d)" and "(\x7b)\"a\":true(\x7d)" differ) while the
recursive diff is empty, because Python compares 1 == True as equal.  The
claimed equivalence "changed_fields empty iff checksums equal" is false. -/
theorem c2_counterexample :
    ((update_state
        (update_state [] "default" "my-app" [("a", JVal.i 1)] 0).1
        "default" "my-app" [("a", JVal.b true)] 1).2.changed_fields = []) ∧
    ((update_state
        (update_state [] "default" "my-app" [("a", JVal.i 1)] 0).1
        "default" "my-app" [("a", JVal.b true)] 1).2.old_snapshot.map
          StateSnapshot.checksum
      = some (serialize (JVal.obj [("a", JVal.i 1)]))) ∧
    ((update_state
        (update_state [] "default" "my-app" [("a", JVal.i 1)] 0).1
        "default" "my-app" [("a", JVal.b true)] 1).2.new_snapshot.checksum
      = serialize (JVal.obj [("a", JVal.b true)])) ∧
    serialize (JVal.obj [("a", JVal.i 1)]) ≠ serialize (JVal.obj [("a", JVal.b true)]) := by
  refine ⟨?_, ?_, ?_, ?_⟩
  · simp [update_state, StateSnapshot.create, dictGet, dictSet,
      find_changed_fields, removed_keys, changed_new, serialize, serializeKV,
      pyEq, intToString, natDigits, natDigits.go]
  · rfl
  · rfl
  · decide

/-- C2 amended: when a prior snapshot exists, equal checksums force an
empty changed_fields (the fast path), and a non-empty changed_fields forces
different checksums; but different checksums do not imply a non-empty diff
(see the counterexample: values that are Python-equal, such as 1 and True,
can serialize differently). -/
theorem c2_amended_checksum_diff (states : List (String × StateSnapshot))
    (nspace name : String) (new_data : List (String × JVal)) (now : ℚ)
    (o : StateSnapshot)
    (h : dictGet states (nspace ++ "/" ++ name) = some o) :
    (update_state states nspace name new_data now).2.old_snapshot = some o ∧
    (o.checksum = (StateSnapshot.create new_data now).checksum →
      (update_state states nspace name new_data now).2.changed_fields = []) ∧
    ((update_state states nspace name new_data now).2.changed_fields ≠ [] →
      o.checksum ≠ (StateSnapshot.create new_data now).checksum) := by
  simp only [update_state, h]
  refine ⟨trivial, ?_, ?_⟩
  · intro heq
    simp [heq]
  · intro hne
    intro heq
    apply hne
    simp [heq]

/-- C2 witness: re-submitting the identical payload reproduces the
checksum, so the change set is empty. -/
theorem c2_amended_witness :
    (update_state [("default/my-app", StateSnapshot.create [("a", JVal.i 1)] 0)]
        "default" "my-app" [("a", JVal.i 1)] 1).2.old_snapshot
      = some (StateSnapshot.create [("a", JVal.i 1)] 0) ∧
    (update_state [("default/my-app", StateSnapshot.create [("a", JVal.i 1)] 0)]
        "default" "my-app" [("a", JVal.i 1)] 1).2.changed_fields = [] := by
  have h := c2_amended_checksum_diff
    [("default/my-app", StateSnapshot.create [("a", JVal.i 1)] 0)]
    "default" "my-app" [("a", JVal.i 1)] 1
    (StateSnapshot.create [("a", JVal.i 1)] 0) rfl
  exact ⟨h.1, h.2.1 rfl⟩

/-- C9: the first `update_state` for a tenant key returns a StateChange
with no old snapshot, an empty changed_fields, is_initial = true and
has_changes = true; and on such an initial change trigger evaluation skips
the changed-fields gate entirely, evaluating the condition against the full
new state (returning a boolean, false only for a falsy field or
condition). -/
theorem c9_initial_update (states : List (String × StateSnapshot))
    (nspace name : String) (new_data : List (String × JVal)) (now : ℚ)
    (h : dictGet states (nspace ++ "/" ++ name) = none) :
    (update_state states nspace name new_data now).2.old_snapshot = none ∧
    (update_state states nspace name new_data now).2.changed_fields = [] ∧
    (update_state states nspace name new_data now).2.is_initial = true ∧
    (update_state states nspace name new_data now).2.has_changes = true ∧
    (∀ trigger_config,
      evaluate_trigger_condition
          (update_state states nspace name new_data now).2 trigger_config
        = .ok (if pyTruthy ((dictGet trigger_config "field").getD .null)
                  && pyTruthy ((dictGet trigger_config "condition").getD .null)
               then eval_condition ((dictGet trigger_config "condition").getD .null)
                  (get_nested_value_any new_data
                    ((dictGet trigger_config "field").getD .null))
                  ((dictGet trigger_config "value").getD .null)
               else false)) := by
  refine ⟨?_, ?_, ?_, ?_, ?_⟩
  · simp [update_state, h]
  · simp [update_state, h]
  · simp [update_state, h, StateChange.is_initial]
  · simp [update_state, h, StateChange.has_changes, StateChange.is_initial]
  · intro trigger_config
    simp only [update_state, h]
    by_cases htr : (pyTruthy ((dictGet trigger_config "field").getD .null)
        && pyTruthy ((dictGet trigger_config "condition").getD .null)) = true
    · simp [evaluate_trigger_condition, StateChange.is_initial,
        StateSnapshot.create, htr]
    · rw [Bool.not_eq_true] at htr
      simp [evaluate_trigger_condition, StateChange.is_initial,
        StateSnapshot.create, htr]

/-- C9 witness: the first observation of {"app": {"health": "unhealthy"}}
is initial, has changes, and an equals-trigger on app.health fires against
the full new state even though changed_fields is empty. -/
theorem c9_initial_update_witness :
    (update_state [] "default" "my-app"
        [("app", JVal.obj [("health", JVal.s "unhealthy")])] 0).2.old_snapshot
      = none ∧
    (update_state [] "default" "my-app"
        [("app", JVal.obj [("health", JVal.s "unhealthy")])] 0).2.changed_fields
      = [] ∧
    (update_state [] "default" "my-app"
        [("app", JVal.obj [("health", JVal.s "unhealthy")])] 0).2.is_initial
      = true ∧
    (update_state [] "default" "my-app"
        [("app", JVal.obj [("health", JVal.s "unhealthy")])] 0).2.has_changes
      = true ∧
    evaluate_trigger_condition
        (update_state [] "default" "my-app"
          [("app", JVal.obj [("health", JVal.s "unhealthy")])] 0).2
        [("field", JVal.s "app.health"), ("condition", JVal.s "equals"),
         ("value", JVal.s "unhealthy")]
      = .ok true := by
  have h := c9_initial_update [] "default" "my-app"
    [("app", JVal.obj [("health", JVal.s "unhealthy")])] 0 rfl
  refine ⟨h.1, h.2.1, h.2.2.1, h.2.2.2.1, ?_⟩
  rw [h.2.2.2.2]
  rfl

/-- C1: a StateChange with has_changes = false (non-initial, empty
changed_fields) emits no cluster event in the poll cycle and never runs an
effector: trigger evaluation returns false for every trigger whose field
value is hashable (in particular every string field), so a registered
handler yields a skipped result, and the effector's execute is never
invoked for any action, registered or not. -/
theorem c1_no_event_no_effector (sc : StateChange) (h : sc.has_changes = false) :
    poll_cycle_events sc = [] ∧
    (∀ (registered : Bool) (trigger_config : List (String × JVal))
        (exec_status : ActionStatus),
      (execute_action registered sc trigger_config exec_status).2 = false) ∧
    (∀ trigger_config,
      pyHashable ((dictGet trigger_config "field").getD .null) = true →
      evaluate_trigger_condition sc trigger_config = .ok false) ∧
    (∀ trigger_config exec_status,
      pyHashable ((dictGet trigger_config "field").getD .null) = true →
      (execute_action true sc trigger_config exec_status).1
        = ActionStatus.skipped) := by
  have hparts := h
  rw [StateChange.has_changes, Bool.or_eq_false_iff] at hparts
  obtain ⟨hii, hcf'⟩ := hparts
  have hcf : sc.changed_fields = [] := by
    have : sc.changed_fields.isEmpty = true := by
      cases hcfv : sc.changed_fields.isEmpty
      · rw [hcfv] at hcf'
        simp at hcf'
      · rfl
    exact List.isEmpty_iff.mp this
  have hevalh : ∀ tc, pyHashable ((dictGet tc "field").getD .null) = true →
      evaluate_trigger_condition sc tc = .ok false := by
    intro tc hh
    by_cases ht : (pyTruthy ((dictGet tc "field").getD .null)
        && pyTruthy ((dictGet tc "condition").getD .null)) = true
    · simp [evaluate_trigger_condition, ht, hii, hh, pyMem, hcf]
    · rw [Bool.not_eq_true] at ht
      simp [evaluate_trigger_condition, ht]
  have heval : ∀ tc, evaluate_trigger_condition sc tc = .ok false ∨
      evaluate_trigger_condition sc tc = .error "TypeError: unhashable type" := by
    intro tc
    by_cases hh : pyHashable ((dictGet tc "field").getD .null) = true
    · exact Or.inl (hevalh tc hh)
    · rw [Bool.not_eq_true] at hh
      by_cases ht : (pyTruthy ((dictGet tc "field").getD .null)
          && pyTruthy ((dictGet tc "condition").getD .null)) = true
      · right
        simp [evaluate_trigger_condition, ht, hii, hh]
      · left
        rw [Bool.not_eq_true] at ht
        simp [evaluate_trigger_condition, ht]
  refine ⟨?_, ?_, hevalh, ?_⟩
  · simp [poll_cycle_events, h, hii]
  · intro registered tc exec_status
    cases registered
    · simp [execute_action]
    · rcases heval tc with h1 | h1 <;> simp [execute_action, h1]
  · intro tc exec_status hh
    simp [execute_action, hevalh tc hh]

/-- C1 witness: an unchanged snapshot (has_changes = false) produces no
events, a skipped result for a restart trigger on a hashable field, and no
effector invocation. -/
theorem c1_no_event_no_effector_witness :
    poll_cycle_events
        ⟨"my-app", "default", some (StateSnapshot.create [("a", JVal.i 1)] 0),
         StateSnapshot.create [("a", JVal.i 1)] 1, []⟩ = [] ∧
    (∀ (registered : Bool) (trigger_config : List (String × JVal))
        (exec_status : ActionStatus),
      (execute_action registered
        ⟨"my-app", "default", some (StateSnapshot.create [("a", JVal.i 1)] 0),
         StateSnapshot.create [("a", JVal.i 1)] 1, []⟩
        trigger_config exec_status).2 = false) ∧
    (∀ trigger_config,
      pyHashable ((dictGet trigger_config "field").getD .null) = true →
      evaluate_trigger_condition
        ⟨"my-app", "default", some (StateSnapshot.create [("a", JVal.i 1)] 0),
         StateSnapshot.create [("a", JVal.i 1)] 1, []⟩
        trigger_config = .ok false) ∧
    (∀ trigger_config exec_status,
      pyHashable ((dictGet trigger_config "field").getD .null) = true →
      (execute_action true
        ⟨"my-app", "default", some (StateSnapshot.create [("a", JVal.i 1)] 0),
         StateSnapshot.create [("a", JVal.i 1)] 1, []⟩
        trigger_config exec_status).1 = ActionStatus.skipped) :=
  c1_no_event_no_effector
    ⟨"my-app", "default", some (StateSnapshot.create [("a", JVal.i 1)] 0),
     StateSnapshot.create [("a", JVal.i 1)] 1, []⟩ rfl

/-- C5 counterexample: a less_than trigger on a field that is absent from
the state (lookup returns None, a non-numeric value) evaluates to true,
not false: `float(None or 0)` coerces the absent value to 0 and 0 < 5. -/
theorem c5_counterexample :
    get_nested_value [] "a" = none ∧
    evaluate_trigger_condition
      ⟨"my-app", "default", none, StateSnapshot.create [] 0, []⟩
      [("field", JVal.s "a"), ("condition", JVal.s "less_than"),
       ("value", JVal.i 5)] = .ok true := ⟨rfl, rfl⟩

/-- C5 amended: for greater_than/less_than triggers that reach condition
evaluation, falsy current or configured values (including an absent lookup)
are coerced to 0 by `v or 0` and compared numerically; the trigger
evaluates to false only when the coerced value of either side fails float
conversion (a truthy non-numeric value), and otherwise returns the numeric
comparison of the coerced values. -/
theorem c5_amended_numeric_conditions (sc : StateChange)
    (trigger_config : List (String × JVal))
    (h1 : pyTruthy ((dictGet trigger_config "field").getD .null) = true)
    (h2 : pyTruthy ((dictGet trigger_config "condition").getD .null) = true)
    (hg : sc.is_initial = true ∨
      (pyHashable ((dictGet trigger_config "field").getD .null) = true ∧
       pyMem ((dictGet trigger_config "field").getD .null) sc.changed_fields
         = true))
    (hc : (dictGet trigger_config "condition").getD .null = .s "greater_than" ∨
          (dictGet trigger_config "condition").getD .null = .s "less_than") :
    (pyTruthy (get_nested_value_any sc.new_snapshot.data
        ((dictGet trigger_config "field").getD .null)) = false →
      pyFloat (or_zero (get_nested_value_any sc.new_snapshot.data
        ((dictGet trigger_config "field").getD .null))) = some 0) ∧
    ((pyFloat (or_zero (get_nested_value_any sc.new_snapshot.data
        ((dictGet trigger_config "field").getD .null))) = none ∨
      pyFloat (or_zero ((dictGet trigger_config "value").getD .null)) = none) →
      evaluate_trigger_condition sc trigger_config = .ok false) ∧
    (∀ a b,
      pyFloat (or_zero (get_nested_value_any sc.new_snapshot.data
        ((dictGet trigger_config "field").getD .null))) = some a →
      pyFloat (or_zero ((dictGet trigger_config "value").getD .null)) = some b →
      ((dictGet trigger_config "condition").getD .null = .s "greater_than" →
        evaluate_trigger_condition sc trigger_config = .ok (decide (b < a))) ∧
      ((dictGet trigger_config "condition").getD .null = .s "less_than" →
        evaluate_trigger_condition sc trigger_config
          = .ok (decide (a < b)))) := by
  have hreach : evaluate_trigger_condition sc trigger_config =
      .ok (eval_condition ((dictGet trigger_config "condition").getD .null)
        (get_nested_value_any sc.new_snapshot.data
          ((dictGet trigger_config "field").getD .null))
        ((dictGet trigger_config "value").getD .null)) := by
    rcases hg with hg | ⟨hgh, hgm⟩
    · simp [evaluate_trigger_condition, h1, h2, StateChange.is_initial] at hg ⊢
      simp [hg]
    · simp [evaluate_trigger_condition, h1, h2, hgh, hgm]
  refine ⟨?_, ?_, ?_⟩
  · intro hfalsy
    simp [or_zero, hfalsy, pyFloat]
  · intro hnone
    rw [hreach]
    rcases hc with hc | hc <;>
      rcases hnone with hnone | hnone <;>
        simp [eval_condition, hc, pyEq, hnone]
  · intro a b ha hb
    constructor <;> intro hcc <;> rw [hreach] <;>
      simp [eval_condition, hcc, pyEq, ha, hb]

/-- C5 witness: a greater_than trigger whose current value is the truthy
non-numeric string "abc" evaluates to false. -/
theorem c5_amended_witness :
    evaluate_trigger_condition
      ⟨"my-app", "default", none, StateSnapshot.create [("value", JVal.s "abc")] 0,
       []⟩
      [("field", JVal.s "value"), ("condition", JVal.s "greater_than"),
       ("value", JVal.i 5)] = .ok false :=
  (c5_amended_numeric_conditions
    ⟨"my-app", "default", none, StateSnapshot.create [("value", JVal.s "abc")] 0,
     []⟩
    [("field", JVal.s "value"), ("condition", JVal.s "greater_than"),
     ("value", JVal.i 5)]
    rfl rfl (Or.inl rfl) (Or.inl rfl)).2.1 (Or.inl rfl)

/-- C10 counterexample: trigger evaluation is not total: on a non-initial
state change, a truthy unhashable field value (here a list) raises
TypeError from the membership test `field not in changed_fields` before any
condition is evaluated. -/
theorem c10_counterexample :
    evaluate_trigger_condition
      ⟨"my-app", "default", some (StateSnapshot.create [] 0),
       StateSnapshot.create [] 1, []⟩
      [("field", JVal.arr [JVal.i 1]), ("condition", JVal.s "exists")]
      = .error "TypeError: unhashable type" := rfl

/-- C10 amended: trigger evaluation returns a boolean whenever the state
change is initial or the field value is hashable (every well-formed string
field); it returns false for a missing/falsy field or condition and for an
unknown condition name; and the numeric conditions return false when the
falsy-coerced value of either side fails float conversion.  The nested
lookup is modelled Option-valued: its only failure mode is `none`. -/
theorem c10_amended_totality :
    (∀ (sc : StateChange) (tc : List (String × JVal)),
      sc.is_initial = true ∨ pyHashable ((dictGet tc "field").getD .null) = true →
      ∃ bl, evaluate_trigger_condition sc tc = .ok bl) ∧
    (∀ (sc : StateChange) (tc : List (String × JVal)),
      pyTruthy ((dictGet tc "field").getD .null) = false ∨
      pyTruthy ((dictGet tc "condition").getD .null) = false →
      evaluate_trigger_condition sc tc = .ok false) ∧
    (∀ (sc : StateChange) (tc : List (String × JVal)),
      (sc.is_initial = true ∨
        pyHashable ((dictGet tc "field").getD .null) = true) →
      (∀ c ∈ ["equals", "not_equals", "greater_than", "less_than", "contains",
          "exists", "not_exists"],
        pyEq ((dictGet tc "condition").getD .null) (.s c) = false) →
      evaluate_trigger_condition sc tc = .ok false) ∧
    (∀ current_value expected_value : JVal,
      pyFloat (or_zero current_value) = none ∨
      pyFloat (or_zero expected_value) = none →
      eval_condition (.s "greater_than") current_value expected_value = false ∧
      eval_condition (.s "less_than") current_value expected_value = false) := by
  have hmissing : ∀ (sc : StateChange) (tc : List (String × JVal)),
      pyTruthy ((dictGet tc "field").getD .null) = false ∨
      pyTruthy ((dictGet tc "condition").getD .null) = false →
      evaluate_trigger_condition sc tc = .ok false := by
    intro sc tc hy
    rcases hy with hy | hy <;> simp [evaluate_trigger_condition, hy]
  have hok : ∀ (sc : StateChange) (tc : List (String × JVal)),
      sc.is_initial = true ∨ pyHashable ((dictGet tc "field").getD .null) = true →
      evaluate_trigger_condition sc tc = .ok false ∨
      evaluate_trigger_condition sc tc =
        .ok (eval_condition ((dictGet tc "condition").getD .null)
          (get_nested_value_any sc.new_snapshot.data
            ((dictGet tc "field").getD .null))
          ((dictGet tc "value").getD .null)) := by
    intro sc tc hy
    by_cases ht : (pyTruthy ((dictGet tc "field").getD .null)
        && pyTruthy ((dictGet tc "condition").getD .null)) = true
    · rcases hy with hii | hh
      · right
        simp [evaluate_trigger_condition, ht, hii]
      · by_cases hm : pyMem ((dictGet tc "field").getD .null) sc.changed_fields
            = true
        · right
          cases hini : sc.is_initial
          · simp [evaluate_trigger_condition, ht, hh, hm, hini]
          · simp [evaluate_trigger_condition, ht, hh, hini]
        · cases hini : sc.is_initial
          · left
            rw [Bool.not_eq_true] at hm
            simp [evaluate_trigger_condition, ht, hh, hm, hini]
          · right
            simp [evaluate_trigger_condition, ht, hh, hini]
    · left
      rw [Bool.not_eq_true, Bool.and_eq_false_iff] at ht
      rcases ht with ht | ht <;> exact hmissing sc tc (by simp [ht])
  refine ⟨?_, hmissing, ?_, ?_⟩
  · intro sc tc hy
    rcases hok sc tc hy with h1 | h1
    · exact ⟨false, h1⟩
    · exact ⟨_, h1⟩
  · intro sc tc hy hunk
    have e1 := hunk "equals" (by simp)
    have e2 := hunk "not_equals" (by simp)
    have e3 := hunk "greater_than" (by simp)
    have e4 := hunk "less_than" (by simp)
    have e5 := hunk "contains" (by simp)
    have e6 := hunk "exists" (by simp)
    have e7 := hunk "not_exists" (by simp)
    rcases hok sc tc hy with h1 | h1
    · exact h1
    · rw [h1]
      simp [eval_condition, e1, e2, e3, e4, e5, e6, e7]
  · intro current_value expected_value hy
    rcases hy with hy | hy <;>
      constructor <;> simp [eval_condition, pyEq, hy]

/-- C10 witness: an empty trigger configuration (missing field and
condition) evaluates to false without raising. -/
theorem c10_amended_witness :
    evaluate_trigger_condition
      ⟨"my-app", "default", none, StateSnapshot.create [] 0, []⟩ []
      = .ok false :=
  c10_amended_totality.2.1
    ⟨"my-app", "default", none, StateSnapshot.create [] 0, []⟩ [] (Or.inl rfl)

/-- Formalisation of the claim's wording, for comparison with the code:
the summary type is Warning iff some changed path's leaf name is a member
of the warning-field set and the stringified new value at that path
contains a bad word case-insensitively. -/
def claimed_summary_warning (changed_fields : List String)
    (new_data : List (String × JVal)) : Bool :=
  changed_fields.any (fun field =>
    warning_fields.contains (strLower (((splitDots field).getLast?).getD "")) &&
      summary_bad_words.any (fun bad =>
        strContains (strLower (get_field_value new_data field)) bad))

/-- C4 counterexample: for the changed path "status2" with new value
"error", the code emits a Warning summary event (the warning word "status"
is matched as a substring of the whole path), while the claim's leaf-name
membership test says Normal ("status2" is not in the warning-field set). -/
theorem c4_counterexample :
    determine_event_type ["status2"] [("status2", JVal.s "error")] = "Warning" ∧
    claimed_summary_warning ["status2"] [("status2", JVal.s "error")] = false ∧
    generate_state_change_event
      ⟨"my-app", "default",
       some (StateSnapshot.create [("status2", JVal.s "ok")] 0),
       StateSnapshot.create [("status2", JVal.s "error")] 1, ["status2"]⟩
      = [("StateFieldChanged", "Warning")] := ⟨rfl, rfl, rfl⟩

/-- C4 amended: for a non-initial change with at least one changed path,
the first event is the summary event carrying the computed type, and that
type is Warning iff some changed path contains a warning field name as a
substring of the whole lowercased dotted path (not leaf-name membership)
and the displayed new value at that path is non-empty and contains a bad
word case-insensitively; in all other cases it is Normal. -/
theorem c4_amended_summary_warning (sc : StateChange)
    (h1 : sc.is_initial = false) (h2 : sc.changed_fields ≠ []) :
    (∃ reason rest, generate_state_change_event sc =
      (reason, determine_event_type sc.changed_fields sc.new_snapshot.data)
        :: rest) ∧
    (determine_event_type sc.changed_fields sc.new_snapshot.data = "Warning" ↔
      ∃ field ∈ sc.changed_fields,
        warning_fields.any (fun w => strContains (strLower field) w) = true ∧
        (get_field_value sc.new_snapshot.data field).isEmpty = false ∧
        summary_bad_words.any (fun bad =>
            strContains (strLower (get_field_value sc.new_snapshot.data field))
              bad) = true) ∧
    (determine_event_type sc.changed_fields sc.new_snapshot.data = "Warning" ∨
     determine_event_type sc.changed_fields sc.new_snapshot.data = "Normal") := by
  refine ⟨?_, ?_, ?_⟩
  · have hhc : sc.has_changes = true := by
      have hie : sc.changed_fields.isEmpty = false := by
        cases hcc : sc.changed_fields
        · exact absurd hcc h2
        · rfl
      simp [StateChange.has_changes, h1, hie]
    refine ⟨if sc.changed_fields.length == 1 then "StateFieldChanged"
      else "StateChanged", specific_field_events sc, ?_⟩
    simp [generate_state_change_event, h1, hhc]
  · unfold determine_event_type
    split
    next hany =>
      simp only [List.any_eq_true, Bool.and_eq_true, Bool.not_eq_true'] at hany
      constructor
      · intro _
        obtain ⟨field, hmem, ha, hb, hc⟩ := hany
        exact ⟨field, hmem, List.any_eq_true.mpr ha, hb, List.any_eq_true.mpr hc⟩
      · intro _
        rfl
    next hany =>
      simp only [List.any_eq_true, Bool.and_eq_true, Bool.not_eq_true',
        not_exists, not_and] at hany
      constructor
      · intro hc
        exact absurd hc (by decide)
      · rintro ⟨field, hmem, ha, hb, hc⟩
        obtain ⟨bad, hbm, hbt⟩ := List.any_eq_true.mp hc
        exact absurd hbt (hany field hmem (List.any_eq_true.mp ha) hb bad hbm)
  · unfold determine_event_type
    split
    · exact Or.inl rfl
    · exact Or.inr rfl

/-- C4 witness: a changed "health" path whose new value is "unhealthy"
yields a Warning summary event. -/
theorem c4_amended_summary_warning_witness :
    (∃ reason rest, generate_state_change_event
      ⟨"my-app", "default", some (StateSnapshot.create [("health", JVal.s "ok")] 0),
       StateSnapshot.create [("health", JVal.s "unhealthy")] 1, ["health"]⟩ =
      (reason, determine_event_type ["health"] [("health", JVal.s "unhealthy")])
        :: rest) ∧
    (determine_event_type ["health"] [("health", JVal.s "unhealthy")] = "Warning" ↔
      ∃ field ∈ ["health"],
        warning_fields.any (fun w => strContains (strLower field) w) = true ∧
        (get_field_value [("health", JVal.s "unhealthy")] field).isEmpty = false ∧
        summary_bad_words.any (fun bad =>
            strContains (strLower (get_field_value [("health", JVal.s "unhealthy")]
              field)) bad) = true) ∧
    (determine_event_type ["health"] [("health", JVal.s "unhealthy")] = "Warning" ∨
     determine_event_type ["health"] [("health", JVal.s "unhealthy")] = "Normal") :=
  c4_amended_summary_warning
    ⟨"my-app", "default", some (StateSnapshot.create [("health", JVal.s "ok")] 0),
     StateSnapshot.create [("health", JVal.s "unhealthy")] 1, ["health"]⟩
    rfl (by decide)

/-- C6 counterexample: a spec written with snake_case top-level keys is not
accepted: its values are ignored and the defaults are used (polling
interval 30, empty state query), whereas the camelCase equivalent yields
the configured values.  The two specs do not produce the same TAppConfig. -/
theorem c6_counterexample :
    ((start_monitoring_config
        [("selector", JVal.obj [("matchLabels", JVal.obj [("app", JVal.s "x")])]),
         ("stateQuery", JVal.s "query Q"), ("pollingInterval", JVal.i 60)]).map
      (fun c => (c.polling_interval, c.state_query))
      = some (60, "query Q")) ∧
    ((start_monitoring_config
        [("selector", JVal.obj [("matchLabels", JVal.obj [("app", JVal.s "x")])]),
         ("state_query", JVal.s "query Q"), ("polling_interval", JVal.i 60)]).map
      (fun c => (c.polling_interval, c.state_query))
      = some (30, "")) := ⟨rfl, rfl⟩

/-- C6 amended: `start_monitoring` reads only the camelCase spelling of the
top-level spec keys (plus the case-identical keys selector, actions and
timeout); a spec containing none of those keys, whatever snake_case keys it
carries, is translated to the all-defaults configuration. -/
theorem c6_amended_camel_only (spec : List (String × JVal))
    (h : ∀ k ∈ ["selector", "graphqlEndpoint", "pollingInterval", "stateQuery",
        "actions", "timeout", "maxRetries"], (dictGet spec k).isNone = true) :
    start_monitoring_config spec
      = some ⟨[], "/graphql", 30, "", [], 10, 3⟩ := by
  have h1 : dictGet spec "selector" = none :=
    Option.isNone_iff_eq_none.mp (h "selector" (by simp))
  have h2 : dictGet spec "graphqlEndpoint" = none :=
    Option.isNone_iff_eq_none.mp (h "graphqlEndpoint" (by simp))
  have h3 : dictGet spec "pollingInterval" = none :=
    Option.isNone_iff_eq_none.mp (h "pollingInterval" (by simp))
  have h4 : dictGet spec "stateQuery" = none :=
    Option.isNone_iff_eq_none.mp (h "stateQuery" (by simp))
  have h5 : dictGet spec "actions" = none :=
    Option.isNone_iff_eq_none.mp (h "actions" (by simp))
  have h6 : dictGet spec "timeout" = none :=
    Option.isNone_iff_eq_none.mp (h "timeout" (by simp))
  have h7 : dictGet spec "maxRetries" = none :=
    Option.isNone_iff_eq_none.mp (h "maxRetries" (by simp))
  simp [start_monitoring_config, converted_spec, h1, h2, h3, h4, h5, h6, h7,
    tapp_config_validate, dictGet, List.mapM, List.mapM.loop]

/-- C6 witness: a fully snake_case spec produces the all-defaults
configuration. -/
theorem c6_amended_camel_only_witness :
    start_monitoring_config
        [("state_query", JVal.s "query Q"), ("polling_interval", JVal.i 60),
         ("max_retries", JVal.i 7)]
      = some ⟨[], "/graphql", 30, "", [], 10, 3⟩ :=
  c6_amended_camel_only
    [("state_query", JVal.s "query Q"), ("polling_interval", JVal.i 60),
     ("max_retries", JVal.i 7)]
    (by decide)
